import Mathlib

/-
Verification development for the seord-vn SEO analyzer
(src/seo-analyzer.ts).  The SeoAnalyzer class is embedded shallowly:
its pure string helpers become Lean functions over List Char, the
JavaScript number that flows through the density and score formulas is
modelled by a four-valued type (finite rational, +Infinity, -Infinity,
NaN), and the message-assignment pipeline run by the constructor
becomes a pure function building an explicit Messages record.  The
HtmlAnalyzer collaborator (html-analyzer.ts, not part of the analyzed
sources) is modelled from the spec as a record of its outputs.
-/

set_option maxHeartbeats 1000000
set_option maxRecDepth 8192

namespace SeordVn

/-- Model of a JavaScript number as it occurs in this program: a finite
rational, positive or negative infinity, or NaN.  The program computes
only quotients and sums of nonnegative counts, so these four values
cover every reachable result. -/
inductive JSNum where
  | fin : ℚ → JSNum
  | posInf : JSNum
  | negInf : JSNum
  | nan : JSNum
deriving DecidableEq

/-- JavaScript strict comparison a < b (false on NaN). -/
def JSNum.lt : JSNum → JSNum → Bool
  | .fin a, .fin b => decide (a < b)
  | .fin _, .posInf => true
  | .fin _, .negInf => false
  | .fin _, .nan => false
  | .posInf, _ => false
  | .negInf, .fin _ => true
  | .negInf, .posInf => true
  | .negInf, .negInf => false
  | .negInf, .nan => false
  | .nan, _ => false

/-- JavaScript strict comparison a > b (false on NaN). -/
def JSNum.gt (a b : JSNum) : Bool := JSNum.lt b a

/-- JavaScript addition restricted to the values above. -/
def JSNum.add : JSNum → JSNum → JSNum
  | .nan, _ => .nan
  | _, .nan => .nan
  | .posInf, .negInf => .nan
  | .negInf, .posInf => .nan
  | .posInf, _ => .posInf
  | _, .posInf => .posInf
  | .negInf, _ => .negInf
  | _, .negInf => .negInf
  | .fin a, .fin b => .fin (a + b)

/-- Multiplication by the literal 10 used in getKeywordSeoScore. -/
def JSNum.mulTen : JSNum → JSNum
  | .nan => .nan
  | .posInf => .posInf
  | .negInf => .negInf
  | .fin a => .fin (a * 10)

/-- JavaScript Math.min on two arguments (NaN-propagating). -/
def JSNum.jmin : JSNum → JSNum → JSNum
  | .nan, _ => .nan
  | _, .nan => .nan
  | .negInf, _ => .negInf
  | _, .negInf => .negInf
  | .posInf, b => b
  | a, .posInf => a
  | .fin a, .fin b => .fin (min a b)

/-- JavaScript truthiness of a number (0 and NaN are falsy). -/
def JSNum.truthy : JSNum → Bool
  | .fin a => decide (a ≠ 0)
  | .posInf => true
  | .negInf => true
  | .nan => false

/-- The JavaScript quotient (occ / wc) * 100 on the integer quantities
the program divides: a zero word count makes the result non-finite
(NaN when the numerator is 0, an infinity otherwise). -/
def densityVal (occ : ℤ) (wc : ℕ) : JSNum :=
  if wc = 0 then
    if occ = 0 then .nan
    else if 0 < occ then .posInf
    else .negInf
  else .fin ((occ : ℚ) / (wc : ℚ) * 100)

/-- Does pat occur as the leading characters of s. -/
def matchesAt : List Char → List Char → Bool
  | [], _ => true
  | _ :: _, [] => false
  | p :: ps, c :: cs => if p = c then matchesAt ps cs else false

/-- Index of the first occurrence of pat inside s, if any. -/
def firstMatchIdx (pat : List Char) : List Char → Option ℕ
  | [] => if matchesAt pat [] then some 0 else none
  | c :: t =>
    if matchesAt pat (c :: t) then some 0
    else (firstMatchIdx pat t).map (fun n => n + 1)

/-- Fuel-indexed worker for JavaScript String.prototype.split with a
nonempty separator: cut at every non-overlapping occurrence, scanning
left to right.  The fuel is always instantiated with more than the
length of the string, which a nonempty separator can never exhaust. -/
def splitOnListFuel (pat : List Char) : ℕ → List Char → List (List Char)
  | 0, s => [s]
  | fuel + 1, s =>
    match firstMatchIdx pat s with
    | none => [s]
    | some i => s.take i :: splitOnListFuel pat fuel (s.drop (i + pat.length))

/-- JavaScript String.prototype.split with a string separator: an empty
separator splits into single characters (mapping the empty string to an
empty array), a nonempty separator cuts at every non-overlapping
occurrence. -/
def jsSplit (s sep : String) : List String :=
  if sep = "" then s.data.map (fun c => String.mk [c])
  else (splitOnListFuel sep.data (s.data.length + 1) s.data).map (fun l => String.mk l)

/-- JavaScript ToString on a nullable string: null prints as "null"
(this is what String.prototype.split receives when the program lets a
null keyword reach it). -/
def jsStrOrNull : Option String → String
  | none => "null"
  | some s => s

/-- JavaScript truthiness of a nullable string: null and "" are falsy. -/
def jsTruthy : Option String → Bool
  | none => false
  | some s => if s = "" then false else true

/-- JavaScript null-coalescing x ?? y on nullable strings. -/
def jsCoalesce (x y : Option String) : Option String :=
  match x with
  | some s => some s
  | none => y

/-- Heading entry from interfaces.ts. -/
structure Heading where
  tag : String
  text : String
deriving DecidableEq

/-- ContentJson from interfaces.ts: title, meta description, nullable
primary keyword and the sub-keyword list. -/
structure ContentJson where
  title : String
  metaDescription : String
  keyword : Option String
  subKeywords : List String
deriving DecidableEq

/-- Modelled from the spec: the HtmlAnalyzer collaborator
(html-analyzer.ts is not among the analyzed sources).  Per §6 of the
spec it supplies the extracted body text, a word count for arbitrary
text (the full document when no text is given), the heading list, and
the unique/duplicate internal and outbound link lists.  The word count
is kept as an abstract function so that every theorem quantifies over
all possible collaborators. -/
structure HtmlAnalyzer where
  bodyText : String
  wordCountOf : String → ℕ
  allHeadingTags : List Heading
  internalUnique : List String
  internalDuplicate : List String
  outboundUnique : List String
  outboundDuplicate : List String

/-- Modelled from the spec: getWordCount(text?) returns the word count
of the given text, or of the full body when the argument is omitted. -/
def HtmlAnalyzer.getWordCount (a : HtmlAnalyzer) (text : Option String) : ℕ :=
  a.wordCountOf (text.getD a.bodyText)

/-- Modelled from the spec: a concrete whitespace-splitting word count,
used to instantiate the abstract collaborator on concrete inputs. -/
def specWordCount (s : String) : ℕ :=
  ((jsSplit s " ").filter (fun t => t ≠ "")).length

/-- countOccurrencesInString of seo-analyzer.ts:
stringContent.split(keyword).length - 1, with the source's
null-coalescing defaults for both parameters. -/
def countOccurrencesInString (c : ContentJson) (a : HtmlAnalyzer)
    (keyword : Option String) (stringContent : Option String) : ℤ :=
  let kw := jsCoalesce keyword c.keyword
  let sc := stringContent.getD a.bodyText
  ((jsSplit sc (jsStrOrNull kw)).length : ℤ) - 1

/-- calculateDensity of seo-analyzer.ts:
(countOccurrencesInString(keyword, bodyText) / getWordCount(bodyText)) * 100
with bodyText defaulting to the analyzer's body text. -/
def calculateDensity (c : ContentJson) (a : HtmlAnalyzer)
    (keyword : Option String) (bodyText : Option String) : JSNum :=
  let text := bodyText.getD a.bodyText
  densityVal (countOccurrencesInString c a keyword (some text))
    (a.getWordCount (some text))

/-- getPosition of seo-analyzer.ts: -1 when text or keyword is falsy,
otherwise text.split(keyword)[0].split(' ').length. -/
def getPosition (text : String) (keyword : Option String) : ℤ :=
  if text = "" ∨ jsTruthy keyword = false then -1
  else ((jsSplit ((jsSplit text (jsStrOrNull keyword)).headD "") " ").length : ℤ)

/-- KeywordDensity from interfaces.ts; position is absent on the
entries built by getSubKeywordsDensity. -/
structure KeywordDensity where
  keyword : Option String
  density : JSNum
  position : Option ℤ
deriving DecidableEq

/-- getKeywordInTitle of seo-analyzer.ts. -/
def getKeywordInTitle (c : ContentJson) (a : HtmlAnalyzer)
    (keywordArg : Option String) : KeywordDensity :=
  let keyword := jsCoalesce keywordArg c.keyword
  { keyword := keyword
    density := calculateDensity c a keyword (some c.title)
    position := some (getPosition c.title keyword) }

/-- getSubKeywordsInTitle of seo-analyzer.ts: one entry per sub-keyword,
with no filtering on the computed density. -/
def getSubKeywordsInTitle (c : ContentJson) (a : HtmlAnalyzer) : List KeywordDensity :=
  c.subKeywords.map (fun sk => getKeywordInTitle c a (some sk))

/-- getSubKeywordsDensity of seo-analyzer.ts. -/
def getSubKeywordsDensity (c : ContentJson) (a : HtmlAnalyzer) : List KeywordDensity :=
  c.subKeywords.map (fun sk =>
    { keyword := some sk
      density := calculateDensity c a (some sk) none
      position := none })

/-- getKeywordInMetaDescription of seo-analyzer.ts. -/
def getKeywordInMetaDescription (c : ContentJson) (a : HtmlAnalyzer)
    (keywordArg : Option String) : KeywordDensity :=
  let keyword := jsCoalesce keywordArg c.keyword
  { keyword := keyword
    density := calculateDensity c a keyword (some c.metaDescription)
    position := some (getPosition c.metaDescription keyword) }

/-- getSubKeywordsInMetaDescription of seo-analyzer.ts. -/
def getSubKeywordsInMetaDescription (c : ContentJson) (a : HtmlAnalyzer) : List KeywordDensity :=
  c.subKeywords.map (fun sk => getKeywordInMetaDescription c a (some sk))

/-- totalUniqueInternalLinksCount of seo-analyzer.ts. -/
def totalUniqueInternalLinksCount (a : HtmlAnalyzer) : ℕ :=
  a.internalUnique.length

/-- totalUniqueExternalLinksCount of seo-analyzer.ts. -/
def totalUniqueExternalLinksCount (a : HtmlAnalyzer) : ℕ :=
  a.outboundUnique.length

/-- The named threshold constants of SeoAnalyzer. -/
def MINIMUM_KEYWORD_DENSITY : ℚ := 0.46

def MAXIMUM_KEYWORD_DENSITY : ℚ := 1.1

def MAXIMUM_SUB_KEYWORD_DENSITY : ℚ := 0.9

def MINIMUM_SUB_KEYWORD_DENSITY : ℚ := 0.12

def EXTREME_LOW_SUB_KEYWORD_DENSITY : ℚ := 0.09

def MAXIMUM_META_DESCRIPTION_LENGTH : ℕ := 160

def MAXIMUM_META_DESCRIPTION_DENSITY : ℚ := 5

def MINIMUM_META_DESCRIPTION_DENSITY : ℚ := 2

def MAXIMUM_TITLE_LENGTH : ℕ := 70

def MINIMUM_TITLE_LENGTH : ℕ := 40

def MAXIMUM_SUB_KEYWORD_IN_META_DESCRIPTION_DENSITY : ℚ := 5

def MINIMUM_SUB_KEYWORD_IN_META_DESCRIPTION_DENSITY : ℚ := 2

/-- Messages of the primary-keyword rule block, one constructor per
push site, carrying the data the source interpolates. -/
inductive KwMsg where
  | present (keyword : Option String)
  | stuffing
  | densityLow (density : JSNum)
  | densityHigh (density : JSNum)
  | densityGood (density : JSNum)
  | missing
deriving DecidableEq

/-- Messages of the sub-keyword rule block. -/
inductive SubKwMsg where
  | present (subKeywords : List String)
  | densityHigh (keyword : Option String) (density : JSNum)
  | densityLow (keyword : Option String) (density : JSNum) (extreme : Bool)
  | densityGood (keyword : Option String) (density : JSNum)
  | missing
deriving DecidableEq

/-- Messages of the title rule block. -/
inductive TitleMsg where
  | tooLong
  | tooShort
  | lengthGood (len : ℕ)
  | keywordGood (density : JSNum)
  | keywordMissing
  | subKeywordsCount (count : ℕ)
  | noSubKeywords
  | missing
deriving DecidableEq

/-- Messages of the link rule block. -/
inductive LinkMsg where
  | internalLow (count : ℕ)
  | internalGood (count : ℕ)
  | externalLow (count : ℕ)
  | internalDuplicate (count : ℕ)
  | noInternalDuplicate
  | externalDuplicate (count : ℕ)
  | noExternalDuplicate
deriving DecidableEq

/-- Messages of the meta-description rule block. -/
inductive MetaMsg where
  | tooLong (len : ℕ)
  | tooShort (len : ℕ)
  | lengthGood (len : ℕ)
  | keywordDensityHigh (density : JSNum)
  | keywordDensityLow (density : JSNum)
  | keywordDensityGood (density : JSNum)
  | notStartWithKeyword (start : String)
  | startsWithKeyword (start : String)
  | subKeywordDensityHigh (keyword : Option String) (density : JSNum)
  | subKeywordDensityLow (keyword : Option String) (density : JSNum) (extreme : Bool)
  | subKeywordDensityGood (keyword : Option String) (density : JSNum)
  | missing
deriving DecidableEq

/-- Messages of the heading rule blocks (structure and keyword-in-heading). -/
inductive HeadMsg where
  | missing
  | count (count : ℕ)
  | h1Missing
  | h1Multiple
  | h1Good
  | h2Missing
  | h2Good
  | h3Missing
  | h3Good
  | keywordIn (keyword : Option String) (tag : String) (text : String)
  | keywordNotIn (keyword : Option String) (tag : String) (text : String)
  | subKeywordIn (keyword : String) (tag : String) (text : String)
  | subKeywordNotIn (keyword : String) (tag : String) (text : String)
deriving DecidableEq

/-- One value per message-push site of seo-analyzer.ts, grouped by rule
block, carrying the data the source interpolates into the
corresponding string. -/
inductive Msg where
  | kw (m : KwMsg)
  | subKw (m : SubKwMsg)
  | title (m : TitleMsg)
  | links (m : LinkMsg)
  | meta (m : MetaMsg)
  | heads (m : HeadMsg)
deriving DecidableEq

/-- The push sites of seo-analyzer.ts under their source-level names. -/
def Msg.keywordPresent (keyword : Option String) : Msg := .kw (.present keyword)

def Msg.keywordStuffing : Msg := .kw .stuffing

def Msg.keywordDensityLow (density : JSNum) : Msg := .kw (.densityLow density)

def Msg.keywordDensityHigh (density : JSNum) : Msg := .kw (.densityHigh density)

def Msg.keywordDensityGood (density : JSNum) : Msg := .kw (.densityGood density)

def Msg.keywordMissing : Msg := .kw .missing

def Msg.subKeywordsPresent (subKeywords : List String) : Msg := .subKw (.present subKeywords)

def Msg.subKeywordDensityHigh (keyword : Option String) (density : JSNum) : Msg :=
  .subKw (.densityHigh keyword density)

def Msg.subKeywordDensityLow (keyword : Option String) (density : JSNum) (extreme : Bool) : Msg :=
  .subKw (.densityLow keyword density extreme)

def Msg.subKeywordDensityGood (keyword : Option String) (density : JSNum) : Msg :=
  .subKw (.densityGood keyword density)

def Msg.subKeywordsMissing : Msg := .subKw .missing

def Msg.titleTooLong : Msg := .title .tooLong

def Msg.titleTooShort : Msg := .title .tooShort

def Msg.titleLengthGood (len : ℕ) : Msg := .title (.lengthGood len)

def Msg.keywordInTitleGood (density : JSNum) : Msg := .title (.keywordGood density)

def Msg.keywordNotInTitle : Msg := .title .keywordMissing

def Msg.subKeywordsInTitleCount (count : ℕ) : Msg := .title (.subKeywordsCount count)

def Msg.noSubKeywordsInTitle : Msg := .title .noSubKeywords

def Msg.titleMissing : Msg := .title .missing

def Msg.internalLinksLow (count : ℕ) : Msg := .links (.internalLow count)

def Msg.internalLinksGood (count : ℕ) : Msg := .links (.internalGood count)

def Msg.externalLinksLow (count : ℕ) : Msg := .links (.externalLow count)

def Msg.internalDuplicateLinks (count : ℕ) : Msg := .links (.internalDuplicate count)

def Msg.noInternalDuplicateLinks : Msg := .links .noInternalDuplicate

def Msg.externalDuplicateLinks (count : ℕ) : Msg := .links (.externalDuplicate count)

def Msg.noExternalDuplicateLinks : Msg := .links .noExternalDuplicate

def Msg.metaTooLong (len : ℕ) : Msg := .meta (.tooLong len)

def Msg.metaTooShort (len : ℕ) : Msg := .meta (.tooShort len)

def Msg.metaLengthGood (len : ℕ) : Msg := .meta (.lengthGood len)

def Msg.metaKeywordDensityHigh (density : JSNum) : Msg := .meta (.keywordDensityHigh density)

def Msg.metaKeywordDensityLow (density : JSNum) : Msg := .meta (.keywordDensityLow density)

def Msg.metaKeywordDensityGood (density : JSNum) : Msg := .meta (.keywordDensityGood density)

def Msg.metaNotStartWithKeyword (start : String) : Msg := .meta (.notStartWithKeyword start)

def Msg.metaStartsWithKeyword (start : String) : Msg := .meta (.startsWithKeyword start)

def Msg.metaSubKeywordDensityHigh (keyword : Option String) (density : JSNum) : Msg :=
  .meta (.subKeywordDensityHigh keyword density)

def Msg.metaSubKeywordDensityLow (keyword : Option String) (density : JSNum) (extreme : Bool) : Msg :=
  .meta (.subKeywordDensityLow keyword density extreme)

def Msg.metaSubKeywordDensityGood (keyword : Option String) (density : JSNum) : Msg :=
  .meta (.subKeywordDensityGood keyword density)

def Msg.metaMissing : Msg := .meta .missing

def Msg.headingsMissing : Msg := .heads .missing

def Msg.headingsCount (count : ℕ) : Msg := .heads (.count count)

def Msg.h1Missing : Msg := .heads .h1Missing

def Msg.h1Multiple : Msg := .heads .h1Multiple

def Msg.h1Good : Msg := .heads .h1Good

def Msg.h2Missing : Msg := .heads .h2Missing

def Msg.h2Good : Msg := .heads .h2Good

def Msg.h3Missing : Msg := .heads .h3Missing

def Msg.h3Good : Msg := .heads .h3Good

def Msg.keywordInHeading (keyword : Option String) (tag : String) (text : String) : Msg :=
  .heads (.keywordIn keyword tag text)

def Msg.keywordNotInHeading (keyword : Option String) (tag : String) (text : String) : Msg :=
  .heads (.keywordNotIn keyword tag text)

def Msg.subKeywordInHeading (keyword : String) (tag : String) (text : String) : Msg :=
  .heads (.subKeywordIn keyword tag text)

def Msg.subKeywordNotInHeading (keyword : String) (tag : String) (text : String) : Msg :=
  .heads (.subKeywordNotIn keyword tag text)

/-- The messages object of SeoAnalyzer: three append-only lists. -/
structure Messages where
  warnings : List Msg
  minorWarnings : List Msg
  goodPoints : List Msg
deriving DecidableEq

/-- The freshly initialized messages object. -/
def Messages.empty : Messages := ⟨[], [], []⟩

/-- messages.warnings.push(m). -/
def pushWarning (ms : Messages) (m : Msg) : Messages :=
  { ms with warnings := ms.warnings ++ [m] }

/-- messages.minorWarnings.push(m). -/
def pushMinorWarning (ms : Messages) (m : Msg) : Messages :=
  { ms with minorWarnings := ms.minorWarnings ++ [m] }

/-- messages.goodPoints.push(m). -/
def pushGoodPoint (ms : Messages) (m : Msg) : Messages :=
  { ms with goodPoints := ms.goodPoints ++ [m] }

/-- assignMessagesForKeyword of seo-analyzer.ts, acting on the messages
state (keywordDensity is the value the constructor stored). -/
def assignMessagesForKeyword (c : ContentJson) (keywordDensity : JSNum)
    (ms : Messages) : Messages :=
  if jsTruthy c.keyword then
    let ms1 := pushGoodPoint ms (.keywordPresent c.keyword)
    let ms2 := if keywordDensity.gt (.fin 5) then pushWarning ms1 .keywordStuffing else ms1
    if keywordDensity.lt (.fin MINIMUM_KEYWORD_DENSITY) then
      pushWarning ms2 (.keywordDensityLow keywordDensity)
    else if keywordDensity.gt (.fin MAXIMUM_KEYWORD_DENSITY) then
      pushWarning ms2 (.keywordDensityHigh keywordDensity)
    else
      pushGoodPoint ms2 (.keywordDensityGood keywordDensity)
  else
    pushWarning ms .keywordMissing

/-- assignMessagesForSubKeywords of seo-analyzer.ts. -/
def assignMessagesForSubKeywords (c : ContentJson) (a : HtmlAnalyzer)
    (ms : Messages) : Messages :=
  if c.subKeywords.length > 0 then
    let ms1 := pushGoodPoint ms (.subKeywordsPresent c.subKeywords)
    (getSubKeywordsDensity c a).foldl (fun acc kd =>
      if kd.density.gt (.fin MAXIMUM_SUB_KEYWORD_DENSITY) then
        pushWarning acc (.subKeywordDensityHigh kd.keyword kd.density)
      else if kd.density.lt (.fin MINIMUM_SUB_KEYWORD_DENSITY) then
        pushMinorWarning acc
          (.subKeywordDensityLow kd.keyword kd.density
            (kd.density.lt (.fin EXTREME_LOW_SUB_KEYWORD_DENSITY)))
      else
        pushGoodPoint acc (.subKeywordDensityGood kd.keyword kd.density)) ms1
  else
    pushMinorWarning ms .subKeywordsMissing

/-- assignMessagesForTitle of seo-analyzer.ts, including the redundant
inner truthiness re-check of the title done by the source. -/
def assignMessagesForTitle (c : ContentJson) (a : HtmlAnalyzer)
    (ms : Messages) : Messages :=
  if c.title ≠ "" then
    let ms1 :=
      if c.title.length > MAXIMUM_TITLE_LENGTH then pushWarning ms .titleTooLong
      else if c.title.length < MINIMUM_TITLE_LENGTH then pushWarning ms .titleTooShort
      else pushGoodPoint ms (.titleLengthGood c.title.length)
    let keywordInTitle := getKeywordInTitle c a none
    let ms2 :=
      if keywordInTitle.density.truthy then
        pushGoodPoint ms1 (.keywordInTitleGood keywordInTitle.density)
      else pushWarning ms1 .keywordNotInTitle
    if c.title ≠ "" then
      if (getSubKeywordsInTitle c a).length > 0 then
        pushGoodPoint ms2 (.subKeywordsInTitleCount (getSubKeywordsInTitle c a).length)
      else pushMinorWarning ms2 .noSubKeywordsInTitle
    else ms2
  else
    pushWarning ms .titleMissing

/-- assignMessagesForLinks of seo-analyzer.ts. -/
def assignMessagesForLinks (a : HtmlAnalyzer) (ms : Messages) : Messages :=
  let wordCount := a.getWordCount none
  let ms1 :=
    if (totalUniqueInternalLinksCount a : ℚ) < (wordCount : ℚ) / 300 then
      pushWarning ms (.internalLinksLow (totalUniqueInternalLinksCount a))
    else pushGoodPoint ms (.internalLinksGood (totalUniqueInternalLinksCount a))
  let ms2 :=
    if (totalUniqueExternalLinksCount a : ℚ) < (wordCount : ℚ) / 400 then
      pushWarning ms1 (.externalLinksLow (totalUniqueExternalLinksCount a))
    else ms1
  let ms3 :=
    if a.internalDuplicate.length > 1 then
      pushMinorWarning ms2 (.internalDuplicateLinks a.internalDuplicate.length)
    else pushGoodPoint ms2 .noInternalDuplicateLinks
  if a.outboundDuplicate.length > 1 then
    pushMinorWarning ms3 (.externalDuplicateLinks a.outboundDuplicate.length)
  else pushGoodPoint ms3 .noExternalDuplicateLinks

/-- JavaScript comparison position > 1 on the optional position field
(absent compares false). -/
def jsPosGtOne : Option ℤ → Bool
  | none => false
  | some p => decide (p > 1)

/-- assignMessagesForMetaDescription of seo-analyzer.ts.  The density
check is nested inside the good-length branch, the position check and
the sub-keyword loop run for every nonempty meta description. -/
def assignMessagesForMetaDescription (c : ContentJson) (a : HtmlAnalyzer)
    (ms : Messages) : Messages :=
  if c.metaDescription ≠ "" then
    let keywordInMeta := getKeywordInMetaDescription c a none
    let ms1 :=
      if c.metaDescription.length > MAXIMUM_META_DESCRIPTION_LENGTH then
        pushWarning ms (.metaTooLong c.metaDescription.length)
      else if c.metaDescription.length < 100 then
        pushWarning ms (.metaTooShort c.metaDescription.length)
      else
        let msa := pushGoodPoint ms (.metaLengthGood c.metaDescription.length)
        if keywordInMeta.density.gt (.fin MAXIMUM_META_DESCRIPTION_DENSITY) then
          pushWarning msa (.metaKeywordDensityHigh keywordInMeta.density)
        else if keywordInMeta.density.lt (.fin MINIMUM_META_DESCRIPTION_DENSITY) then
          pushWarning msa (.metaKeywordDensityLow keywordInMeta.density)
        else pushGoodPoint msa (.metaKeywordDensityGood keywordInMeta.density)
    let ms2 :=
      if jsPosGtOne keywordInMeta.position then
        pushMinorWarning ms1 (.metaNotStartWithKeyword (c.metaDescription.take 20))
      else pushGoodPoint ms1 (.metaStartsWithKeyword (c.metaDescription.take 20))
    (getSubKeywordsInMetaDescription c a).foldl (fun acc kd =>
      if kd.density.gt (.fin MAXIMUM_SUB_KEYWORD_IN_META_DESCRIPTION_DENSITY) then
        pushWarning acc (.metaSubKeywordDensityHigh kd.keyword kd.density)
      else if kd.density.lt (.fin MINIMUM_SUB_KEYWORD_IN_META_DESCRIPTION_DENSITY) then
        pushMinorWarning acc
          (.metaSubKeywordDensityLow kd.keyword kd.density (kd.density.lt (.fin 0.2)))
      else pushGoodPoint acc (.metaSubKeywordDensityGood kd.keyword kd.density)) ms2
  else
    pushWarning ms .metaMissing

/-- filterHeading of seo-analyzer.ts (case-insensitive tag match). -/
def filterHeading (headings : List Heading) (headingTag : String) : List Heading :=
  headings.filter (fun h => h.tag.toLower = headingTag.toLower)

/-- assignMessagesForHeadings of seo-analyzer.ts, acting on the working
heading list stored by the constructor. -/
def assignMessagesForHeadings (headings : List Heading) (ms : Messages) : Messages :=
  if headings.length = 0 then pushWarning ms .headingsMissing
  else
    let ms1 := pushGoodPoint ms (.headingsCount headings.length)
    let h1s := filterHeading headings "h1"
    let ms2 :=
      if h1s.length = 0 then pushWarning ms1 .h1Missing
      else if h1s.length > 1 then pushWarning ms1 .h1Multiple
      else pushGoodPoint ms1 .h1Good
    let h2s := filterHeading headings "h2"
    let ms3 := if h2s.length = 0 then pushWarning ms2 .h2Missing else pushGoodPoint ms2 .h2Good
    let h3s := filterHeading headings "h3"
    if h3s.length = 0 then pushMinorWarning ms3 .h3Missing else pushGoodPoint ms3 .h3Good

/-- assignMessagesForKeywordInHeadings of seo-analyzer.ts. -/
def assignMessagesForKeywordInHeadings (c : ContentJson) (a : HtmlAnalyzer)
    (headings : List Heading) (ms : Messages) : Messages :=
  headings.foldl (fun acc h =>
    if countOccurrencesInString c a c.keyword (some h.text) > 0 then
      pushGoodPoint acc (.keywordInHeading c.keyword h.tag h.text)
    else pushMinorWarning acc (.keywordNotInHeading c.keyword h.tag h.text)) ms

/-- assignMessagesForSubKeywordsInHeadings of seo-analyzer.ts. -/
def assignMessagesForSubKeywordsInHeadings (c : ContentJson) (a : HtmlAnalyzer)
    (headings : List Heading) (ms : Messages) : Messages :=
  headings.foldl (fun acc h =>
    c.subKeywords.foldl (fun acc2 sk =>
      if countOccurrencesInString c a (some sk) (some h.text) > 0 then
        pushGoodPoint acc2 (.subKeywordInHeading sk h.tag h.text)
      else pushMinorWarning acc2 (.subKeywordNotInHeading sk h.tag h.text)) acc) ms

/-- assignMessages of seo-analyzer.ts: the fixed rule sequence run once
by the constructor. -/
def assignMessages (c : ContentJson) (a : HtmlAnalyzer) (keywordDensity : JSNum)
    (headings : List Heading) : Messages :=
  let ms1 := assignMessagesForKeyword c keywordDensity Messages.empty
  let ms2 := assignMessagesForSubKeywords c a ms1
  let ms3 := assignMessagesForTitle c a ms2
  let ms4 := assignMessagesForLinks a ms3
  let ms5 := assignMessagesForMetaDescription c a ms4
  let ms6 := assignMessagesForKeywordInHeadings c a headings ms5
  let ms7 := assignMessagesForSubKeywordsInHeadings c a headings ms6
  assignMessagesForHeadings headings ms7

/-- The SeoAnalyzer object after its constructor has run. -/
structure SeoAnalyzer where
  content : ContentJson
  htmlAnalyzer : HtmlAnalyzer
  keywordDensity : JSNum
  strictMode : Bool
  headings : List Heading
  messages : Messages

/-- The constructor of seo-analyzer.ts: it stores the inputs, computes
the keyword density over the body text, copies the analyzer's heading
list and, when strictMode is false, appends one synthetic
H1-from-title entry, then runs the message pipeline once. -/
def mkSeoAnalyzer (content : ContentJson) (analyzer : HtmlAnalyzer)
    (strictMode : Bool) : SeoAnalyzer :=
  let keywordDensity := calculateDensity content analyzer content.keyword none
  let headings := analyzer.allHeadingTags ++
    (if strictMode then [] else [{ tag := "H1", text := content.title }])
  { content := content
    htmlAnalyzer := analyzer
    keywordDensity := keywordDensity
    strictMode := strictMode
    headings := headings
    messages := assignMessages content analyzer keywordDensity headings }

/-- getSeoScore of seo-analyzer.ts as a function of the messages state:
Math.min((goodPoints.length / (warnings.length + goodPoints.length)) * 100, 100).
When both lists are empty the JavaScript quotient 0 / 0 is NaN. -/
def getSeoScoreOfMessages (ms : Messages) : JSNum :=
  let w := ms.warnings.length
  let g := ms.goodPoints.length
  JSNum.jmin
    (if w + g = 0 then .nan else .fin (((g : ℚ) / ((w : ℚ) + (g : ℚ))) * 100))
    (.fin 100)

/-- getSeoScore of seo-analyzer.ts. -/
def SeoAnalyzer.getSeoScore (s : SeoAnalyzer) : JSNum :=
  getSeoScoreOfMessages s.messages

/-- getKeywordSeoScore of seo-analyzer.ts. -/
def SeoAnalyzer.getKeywordSeoScore (s : SeoAnalyzer) : JSNum :=
  let keywordInTitle := getKeywordInTitle s.content s.htmlAnalyzer none
  let subKeywordsInTitle := getSubKeywordsInTitle s.content s.htmlAnalyzer
  let subKeywordsDensity := getSubKeywordsDensity s.content s.htmlAnalyzer
  let keywordInTitleScore := keywordInTitle.density.mulTen
  let subKeywordsInTitleScore : JSNum := .fin ((subKeywordsInTitle.length : ℚ) * 10)
  let subKeywordsDensityScore :=
    subKeywordsDensity.foldl (fun total kd => total.add kd.density.mulTen) (.fin 0)
  let keywordDensityScore := s.keywordDensity.mulTen
  JSNum.jmin
    (((keywordInTitleScore.add subKeywordsInTitleScore).add
        subKeywordsDensityScore).add keywordDensityScore)
    (.fin 100)

/-- getTitleWordCount of seo-analyzer.ts. -/
def SeoAnalyzer.getTitleWordCount (s : SeoAnalyzer) : ℕ :=
  s.htmlAnalyzer.getWordCount (some s.content.title)

/-- The text of s that comes before the first occurrence of sep
(all of s when sep does not occur).  Used to state what
getPosition computes, independently of the split-based code path. -/
def textBeforeFirstMatch (s sep : String) : String :=
  match firstMatchIdx sep.data s.data with
  | none => s
  | some i => String.mk (s.data.take i)

/-- The number of fragments produced by splitting s at single spaces,
counting empty fragments: the convention the spec documents for word
positions (an empty string counts as one fragment). -/
def spaceSplitCount (s : String) : ℕ :=
  (jsSplit s " ").length

/-- Messages extension order: ms' extends ms when every one of the
three lists of ms' is the corresponding list of ms followed by some
suffix.  Every rule of the pipeline only pushes, so every stage extends
its input state. -/
def MsgExt (ms ms' : Messages) : Prop :=
  (∃ l, ms'.warnings = ms.warnings ++ l) ∧
    (∃ l, ms'.minorWarnings = ms.minorWarnings ++ l) ∧
      (∃ l, ms'.goodPoints = ms.goodPoints ++ l)

/-- A plain analyzer fixture: a short body, the spec word count, no
headings and no links. -/
def exAnalyzerPlain : HtmlAnalyzer :=
  { bodyText := "seo body text"
    wordCountOf := specWordCount
    allHeadingTags := []
    internalUnique := []
    internalDuplicate := []
    outboundUnique := []
    outboundDuplicate := [] }

/-- An analyzer fixture whose extracted body text is empty, so the spec
word count of the body is 0. -/
def exAnalyzerEmptyBody : HtmlAnalyzer :=
  { bodyText := ""
    wordCountOf := specWordCount
    allHeadingTags := []
    internalUnique := []
    internalDuplicate := []
    outboundUnique := []
    outboundDuplicate := [] }

/-- An analyzer fixture that reports word count 0 for every text while
the body text itself is nonempty. -/
def exAnalyzerZeroCount : HtmlAnalyzer :=
  { bodyText := "seo"
    wordCountOf := fun _ => 0
    allHeadingTags := []
    internalUnique := []
    internalDuplicate := []
    outboundUnique := []
    outboundDuplicate := [] }

/-- An analyzer fixture reporting 600 document words with no links. -/
def exAnalyzerManyWords : HtmlAnalyzer :=
  { bodyText := "long document"
    wordCountOf := fun _ => 600
    allHeadingTags := []
    internalUnique := []
    internalDuplicate := []
    outboundUnique := []
    outboundDuplicate := [] }

/-- Analyzer fixture with one h2 heading whose text is "alpha". -/
def exAnalyzerHeadingAlpha : HtmlAnalyzer :=
  { bodyText := "seo body text"
    wordCountOf := specWordCount
    allHeadingTags := [{ tag := "h2", text := "alpha" }]
    internalUnique := []
    internalDuplicate := []
    outboundUnique := []
    outboundDuplicate := [] }

/-- Analyzer fixture with one h2 heading whose text is "beta"; it
differs from exAnalyzerHeadingAlpha only in that heading text. -/
def exAnalyzerHeadingBeta : HtmlAnalyzer :=
  { bodyText := "seo body text"
    wordCountOf := specWordCount
    allHeadingTags := [{ tag := "h2", text := "beta" }]
    internalUnique := []
    internalDuplicate := []
    outboundUnique := []
    outboundDuplicate := [] }

/-- Content fixture with keyword "seo" and no sub-keywords. -/
def exContentShortTitle : ContentJson :=
  { title := "T"
    metaDescription := ""
    keyword := some "seo"
    subKeywords := [] }

/-- Content fixture whose single sub-keyword "xyz" does not occur in
the (truthy) title. -/
def exContentSubKwNotInTitle : ContentJson :=
  { title := "A Good Title"
    metaDescription := ""
    keyword := some "seo"
    subKeywords := ["xyz"] }

/-- Content fixture with an empty title, an empty meta description and
keyword "seo". -/
def exContentEmptyTitle : ContentJson :=
  { title := ""
    metaDescription := ""
    keyword := some "seo"
    subKeywords := [] }

/-- Content fixture with a 40-character title. -/
def exContentTitle40 : ContentJson :=
  { title := "0123456789012345678901234567890123456789"
    metaDescription := ""
    keyword := some "seo"
    subKeywords := [] }

/-- Content fixture with a null primary keyword. -/
def exContentNoKeyword : ContentJson :=
  { title := ""
    metaDescription := ""
    keyword := none
    subKeywords := [] }

/-- Content fixture with a 45-character title, keyword "seo" and one
sub-keyword "tool". -/
def exContentRegular : ContentJson :=
  { title := "A Regular Title For The Seo Content Piece"
    metaDescription := ""
    keyword := some "seo"
    subKeywords := ["tool"] }

/-- Modelled from the spec: a word count that reports the number of
fragments of a single-space split without filtering empty fragments,
as the plain JavaScript text.split(' ').length does; on the empty
string it reports 1 word. -/
def splitWordCount (s : String) : ℕ :=
  (jsSplit s " ").length

/-- Analyzer fixture with an empty body text whose split-based word
count therefore reports 1 word for every empty text. -/
def exAnalyzerBlankCount : HtmlAnalyzer :=
  { bodyText := ""
    wordCountOf := splitWordCount
    allHeadingTags := []
    internalUnique := []
    internalDuplicate := []
    outboundUnique := []
    outboundDuplicate := [] }

/-- Content fixture whose primary keyword is the empty string. -/
def exContentBlankKeyword : ContentJson :=
  { title := ""
    metaDescription := ""
    keyword := some ""
    subKeywords := [] }

/-- Content fixture with keyword "seo" and the empty string as its
single sub-keyword. -/
def exContentBlankSubKw : ContentJson :=
  { title := ""
    metaDescription := ""
    keyword := some "seo"
    subKeywords := [""] }

theorem splitOnListFuel_ne_nil (pat : List Char) (fuel : ℕ) (s : List Char) :
    splitOnListFuel pat fuel s ≠ [] := by
  cases fuel with
  | zero => simp [splitOnListFuel]
  | succ n =>
    unfold splitOnListFuel
    cases firstMatchIdx pat s <;> simp

theorem jsSplit_length_pos (s sep : String) (h : sep ≠ "") :
    1 ≤ (jsSplit s sep).length := by
  unfold jsSplit
  rw [if_neg h]
  rw [List.length_map]
  exact List.length_pos.mpr (splitOnListFuel_ne_nil _ _ _)

theorem jsSplit_headD (s sep : String) (h : sep ≠ "") :
    (jsSplit s sep).headD "" = textBeforeFirstMatch s sep := by
  unfold jsSplit textBeforeFirstMatch
  rw [if_neg h]
  cases hm : firstMatchIdx sep.data s.data <;>
    simp [splitOnListFuel, hm]

theorem countOccurrencesInString_nonneg (c : ContentJson) (a : HtmlAnalyzer)
    (keyword : Option String) (stringContent : Option String)
    (h : jsStrOrNull (jsCoalesce keyword c.keyword) ≠ "") :
    0 ≤ countOccurrencesInString c a keyword stringContent := by
  unfold countOccurrencesInString
  dsimp only
  have := jsSplit_length_pos (stringContent.getD a.bodyText)
    (jsStrOrNull (jsCoalesce keyword c.keyword)) h
  omega

theorem msgExt_refl (ms : Messages) : MsgExt ms ms :=
  ⟨⟨[], by simp⟩, ⟨[], by simp⟩, ⟨[], by simp⟩⟩

theorem msgExt_trans {m1 m2 m3 : Messages} (h1 : MsgExt m1 m2) (h2 : MsgExt m2 m3) :
    MsgExt m1 m3 := by
  obtain ⟨⟨w1, hw1⟩, ⟨n1, hn1⟩, ⟨g1, hg1⟩⟩ := h1
  obtain ⟨⟨w2, hw2⟩, ⟨n2, hn2⟩, ⟨g2, hg2⟩⟩ := h2
  exact ⟨⟨w1 ++ w2, by rw [hw2, hw1, List.append_assoc]⟩,
    ⟨n1 ++ n2, by rw [hn2, hn1, List.append_assoc]⟩,
    ⟨g1 ++ g2, by rw [hg2, hg1, List.append_assoc]⟩⟩

theorem msgExt_pushWarning_of {ms t : Messages} (h : MsgExt ms t) (m : Msg) :
    MsgExt ms (pushWarning t m) := by
  obtain ⟨⟨w, hw⟩, ⟨n, hn⟩, ⟨g, hg⟩⟩ := h
  exact ⟨⟨w ++ [m], by simp [pushWarning, hw]⟩, ⟨n, by simp [pushWarning, hn]⟩,
    ⟨g, by simp [pushWarning, hg]⟩⟩

theorem msgExt_pushMinorWarning_of {ms t : Messages} (h : MsgExt ms t) (m : Msg) :
    MsgExt ms (pushMinorWarning t m) := by
  obtain ⟨⟨w, hw⟩, ⟨n, hn⟩, ⟨g, hg⟩⟩ := h
  exact ⟨⟨w, by simp [pushMinorWarning, hw]⟩, ⟨n ++ [m], by simp [pushMinorWarning, hn]⟩,
    ⟨g, by simp [pushMinorWarning, hg]⟩⟩

theorem msgExt_pushGoodPoint_of {ms t : Messages} (h : MsgExt ms t) (m : Msg) :
    MsgExt ms (pushGoodPoint t m) := by
  obtain ⟨⟨w, hw⟩, ⟨n, hn⟩, ⟨g, hg⟩⟩ := h
  exact ⟨⟨w, by simp [pushGoodPoint, hw]⟩, ⟨n, by simp [pushGoodPoint, hn]⟩,
    ⟨g ++ [m], by simp [pushGoodPoint, hg]⟩⟩

theorem msgExt_ite {ms t e : Messages} (P : Prop) [Decidable P]
    (ht : MsgExt ms t) (he : MsgExt ms e) : MsgExt ms (if P then t else e) := by
  split
  · exact ht
  · exact he

theorem msgExt_foldl_of {α : Type} {f : Messages → α → Messages} {ms t : Messages}
    (l : List α) (h : MsgExt ms t) (hf : ∀ acc x, MsgExt acc (f acc x)) :
    MsgExt ms (l.foldl f t) := by
  induction l generalizing t with
  | nil => exact h
  | cons x xs ih => exact ih (msgExt_trans h (hf t x))

theorem MsgExt.mem_warnings {ms ms' : Messages} (h : MsgExt ms ms') {x : Msg}
    (hx : x ∈ ms.warnings) : x ∈ ms'.warnings := by
  obtain ⟨⟨w, hw⟩, _, _⟩ := h
  rw [hw]
  exact List.mem_append_left _ hx

theorem MsgExt.mem_minorWarnings {ms ms' : Messages} (h : MsgExt ms ms') {x : Msg}
    (hx : x ∈ ms.minorWarnings) : x ∈ ms'.minorWarnings := by
  obtain ⟨_, ⟨n, hn⟩, _⟩ := h
  rw [hn]
  exact List.mem_append_left _ hx

theorem MsgExt.mem_goodPoints {ms ms' : Messages} (h : MsgExt ms ms') {x : Msg}
    (hx : x ∈ ms.goodPoints) : x ∈ ms'.goodPoints := by
  obtain ⟨_, _, ⟨g, hg⟩⟩ := h
  rw [hg]
  exact List.mem_append_left _ hx

theorem MsgExt.len_wg {ms ms' : Messages} (h : MsgExt ms ms') :
    ms.warnings.length + ms.goodPoints.length ≤
      ms'.warnings.length + ms'.goodPoints.length := by
  obtain ⟨⟨w, hw⟩, _, ⟨g, hg⟩⟩ := h
  rw [hw, hg]
  simp
  omega

theorem msgExt_keyword (c : ContentJson) (kd : JSNum) (ms : Messages) :
    MsgExt ms (assignMessagesForKeyword c kd ms) := by
  unfold assignMessagesForKeyword
  repeat
    first
    | apply msgExt_ite
    | apply msgExt_pushWarning_of
    | apply msgExt_pushMinorWarning_of
    | apply msgExt_pushGoodPoint_of
    | exact msgExt_refl _

theorem msgExt_subKeywords (c : ContentJson) (a : HtmlAnalyzer) (ms : Messages) :
    MsgExt ms (assignMessagesForSubKeywords c a ms) := by
  unfold assignMessagesForSubKeywords
  repeat
    first
    | apply msgExt_ite
    | apply msgExt_foldl_of
    | apply msgExt_pushWarning_of
    | apply msgExt_pushMinorWarning_of
    | apply msgExt_pushGoodPoint_of
    | exact msgExt_refl _
    | intro acc x

theorem msgExt_title (c : ContentJson) (a : HtmlAnalyzer) (ms : Messages) :
    MsgExt ms (assignMessagesForTitle c a ms) := by
  unfold assignMessagesForTitle
  repeat
    first
    | apply msgExt_ite
    | apply msgExt_pushWarning_of
    | apply msgExt_pushMinorWarning_of
    | apply msgExt_pushGoodPoint_of
    | exact msgExt_refl _

theorem msgExt_links (a : HtmlAnalyzer) (ms : Messages) :
    MsgExt ms (assignMessagesForLinks a ms) := by
  unfold assignMessagesForLinks
  repeat
    first
    | apply msgExt_ite
    | apply msgExt_pushWarning_of
    | apply msgExt_pushMinorWarning_of
    | apply msgExt_pushGoodPoint_of
    | exact msgExt_refl _

theorem msgExt_meta (c : ContentJson) (a : HtmlAnalyzer) (ms : Messages) :
    MsgExt ms (assignMessagesForMetaDescription c a ms) := by
  unfold assignMessagesForMetaDescription
  repeat
    first
    | apply msgExt_ite
    | apply msgExt_foldl_of
    | apply msgExt_pushWarning_of
    | apply msgExt_pushMinorWarning_of
    | apply msgExt_pushGoodPoint_of
    | exact msgExt_refl _
    | intro acc x

theorem msgExt_headings (hs : List Heading) (ms : Messages) :
    MsgExt ms (assignMessagesForHeadings hs ms) := by
  unfold assignMessagesForHeadings
  repeat
    first
    | apply msgExt_ite
    | apply msgExt_pushWarning_of
    | apply msgExt_pushMinorWarning_of
    | apply msgExt_pushGoodPoint_of
    | exact msgExt_refl _

theorem msgExt_kwHeadings (c : ContentJson) (a : HtmlAnalyzer) (hs : List Heading)
    (ms : Messages) : MsgExt ms (assignMessagesForKeywordInHeadings c a hs ms) := by
  unfold assignMessagesForKeywordInHeadings
  apply msgExt_foldl_of _ (msgExt_refl _)
  intro acc h
  apply msgExt_ite
  · exact msgExt_pushGoodPoint_of (msgExt_refl _) _
  · exact msgExt_pushMinorWarning_of (msgExt_refl _) _

theorem msgExt_subKwHeadings (c : ContentJson) (a : HtmlAnalyzer) (hs : List Heading)
    (ms : Messages) : MsgExt ms (assignMessagesForSubKeywordsInHeadings c a hs ms) := by
  unfold assignMessagesForSubKeywordsInHeadings
  apply msgExt_foldl_of _ (msgExt_refl _)
  intro acc h
  apply msgExt_foldl_of _ (msgExt_refl _)
  intro acc2 sk
  apply msgExt_ite
  · exact msgExt_pushGoodPoint_of (msgExt_refl _) _
  · exact msgExt_pushMinorWarning_of (msgExt_refl _) _

theorem msgExt_assignMessages_tail (c : ContentJson) (a : HtmlAnalyzer) (kd : JSNum)
    (hs : List Heading) :
    MsgExt (assignMessagesForKeyword c kd Messages.empty) (assignMessages c a kd hs) := by
  unfold assignMessages
  exact msgExt_trans (msgExt_subKeywords _ _ _)
    (msgExt_trans (msgExt_title _ _ _)
      (msgExt_trans (msgExt_links _ _)
        (msgExt_trans (msgExt_meta _ _ _)
          (msgExt_trans (msgExt_kwHeadings _ _ _ _)
            (msgExt_trans (msgExt_subKwHeadings _ _ _ _) (msgExt_headings _ _))))))

theorem keyword_stage_wg_lower (c : ContentJson) (kd : JSNum) (ms : Messages) :
    ms.warnings.length + ms.goodPoints.length + 1 ≤
      (assignMessagesForKeyword c kd ms).warnings.length +
        (assignMessagesForKeyword c kd ms).goodPoints.length := by
  unfold assignMessagesForKeyword
  repeat' split
  all_goals simp [pushWarning, pushGoodPoint]
  all_goals omega

theorem mem_warnings_pushWarning {x : Msg} {ms : Messages} {m : Msg}
    (h : x ∈ ms.warnings) : x ∈ (pushWarning ms m).warnings := by
  simp [pushWarning]
  exact Or.inl h

theorem mem_warnings_pushMinorWarning {x : Msg} {ms : Messages} {m : Msg}
    (h : x ∈ ms.warnings) : x ∈ (pushMinorWarning ms m).warnings := h

theorem mem_warnings_pushGoodPoint {x : Msg} {ms : Messages} {m : Msg}
    (h : x ∈ ms.warnings) : x ∈ (pushGoodPoint ms m).warnings := h

theorem mem_warnings_ite {x : Msg} {t e : Messages} {P : Prop} [Decidable P]
    (h1 : x ∈ t.warnings) (h2 : x ∈ e.warnings) : x ∈ (if P then t else e).warnings := by
  split
  · exact h1
  · exact h2

theorem mem_goodPoints_pushWarning {x : Msg} {ms : Messages} {m : Msg}
    (h : x ∈ ms.goodPoints) : x ∈ (pushWarning ms m).goodPoints := h

theorem mem_goodPoints_pushMinorWarning {x : Msg} {ms : Messages} {m : Msg}
    (h : x ∈ ms.goodPoints) : x ∈ (pushMinorWarning ms m).goodPoints := h

theorem mem_goodPoints_pushGoodPoint {x : Msg} {ms : Messages} {m : Msg}
    (h : x ∈ ms.goodPoints) : x ∈ (pushGoodPoint ms m).goodPoints := by
  simp [pushGoodPoint]
  exact Or.inl h

theorem mem_goodPoints_ite {x : Msg} {t e : Messages} {P : Prop} [Decidable P]
    (h1 : x ∈ t.goodPoints) (h2 : x ∈ e.goodPoints) : x ∈ (if P then t else e).goodPoints := by
  split
  · exact h1
  · exact h2

theorem keyword_stage_mem_present (c : ContentJson) (kd : JSNum) (ms : Messages)
    (h : jsTruthy c.keyword = true) :
    Msg.keywordPresent c.keyword ∈ (assignMessagesForKeyword c kd ms).goodPoints := by
  unfold assignMessagesForKeyword
  rw [if_pos h]
  dsimp only
  repeat'
    first
    | (solve | simp [pushGoodPoint, pushWarning, pushMinorWarning])
    | apply mem_goodPoints_ite
    | apply mem_goodPoints_pushWarning
    | apply mem_goodPoints_pushMinorWarning
    | apply mem_goodPoints_pushGoodPoint

theorem keyword_stage_mem_missing (c : ContentJson) (kd : JSNum) (ms : Messages)
    (h : ¬ jsTruthy c.keyword = true) :
    Msg.keywordMissing ∈ (assignMessagesForKeyword c kd ms).warnings := by
  unfold assignMessagesForKeyword
  rw [if_neg h]
  simp [pushWarning]

theorem string_ne_empty_of_length_pos {s : String} (h : 0 < s.length) : s ≠ "" := by
  intro he
  rw [he] at h
  exact absurd h (by decide)

theorem title_stage_mem_lengthGood (c : ContentJson) (a : HtmlAnalyzer) (ms : Messages)
    (hlo : MINIMUM_TITLE_LENGTH ≤ c.title.length)
    (hhi : c.title.length ≤ MAXIMUM_TITLE_LENGTH) :
    Msg.titleLengthGood c.title.length ∈ (assignMessagesForTitle c a ms).goodPoints := by
  have hne : c.title ≠ "" := by
    apply string_ne_empty_of_length_pos
    have : 0 < MINIMUM_TITLE_LENGTH := by decide
    omega
  unfold assignMessagesForTitle
  rw [if_pos hne]
  dsimp only
  rw [if_neg (show ¬ c.title.length > MAXIMUM_TITLE_LENGTH by omega),
    if_neg (show ¬ c.title.length < MINIMUM_TITLE_LENGTH by omega)]
  repeat'
    first
    | (solve | simp [pushGoodPoint, pushWarning, pushMinorWarning])
    | apply mem_goodPoints_ite
    | apply mem_goodPoints_pushWarning
    | apply mem_goodPoints_pushMinorWarning
    | apply mem_goodPoints_pushGoodPoint

theorem title_stage_mem_tooShort (c : ContentJson) (a : HtmlAnalyzer) (ms : Messages)
    (hne : c.title ≠ "")
    (h : c.title.length < MINIMUM_TITLE_LENGTH) :
    Msg.titleTooShort ∈ (assignMessagesForTitle c a ms).warnings := by
  have hmm : MINIMUM_TITLE_LENGTH ≤ MAXIMUM_TITLE_LENGTH := by decide
  unfold assignMessagesForTitle
  rw [if_pos hne]
  dsimp only
  rw [if_neg (show ¬ c.title.length > MAXIMUM_TITLE_LENGTH by omega), if_pos h]
  repeat'
    first
    | (solve | simp [pushWarning, pushGoodPoint, pushMinorWarning])
    | apply mem_warnings_ite

theorem title_stage_mem_tooLong (c : ContentJson) (a : HtmlAnalyzer) (ms : Messages)
    (h : MAXIMUM_TITLE_LENGTH < c.title.length) :
    Msg.titleTooLong ∈ (assignMessagesForTitle c a ms).warnings := by
  have hne : c.title ≠ "" := by
    apply string_ne_empty_of_length_pos
    have : 0 < MAXIMUM_TITLE_LENGTH := by decide
    omega
  unfold assignMessagesForTitle
  rw [if_pos hne]
  dsimp only
  rw [if_pos (show c.title.length > MAXIMUM_TITLE_LENGTH from h)]
  repeat'
    first
    | (solve | simp [pushWarning, pushGoodPoint, pushMinorWarning])
    | apply mem_warnings_ite

theorem headings_stage_mem_missing (ms : Messages) :
    Msg.headingsMissing ∈ (assignMessagesForHeadings [] ms).warnings := by
  unfold assignMessagesForHeadings
  simp [pushWarning]

theorem assignMessages_missing_headings (c : ContentJson) (a : HtmlAnalyzer) (kd : JSNum) :
    Msg.headingsMissing ∈ (assignMessages c a kd []).warnings := by
  unfold assignMessages
  exact headings_stage_mem_missing _

theorem assignMessages_title_tail (c : ContentJson) (a : HtmlAnalyzer) (kd : JSNum)
    (hs : List Heading) :
    MsgExt
      (assignMessagesForTitle c a
        (assignMessagesForSubKeywords c a (assignMessagesForKeyword c kd Messages.empty)))
      (assignMessages c a kd hs) := by
  unfold assignMessages
  exact msgExt_trans (msgExt_links _ _)
    (msgExt_trans (msgExt_meta _ _ _)
      (msgExt_trans (msgExt_kwHeadings _ _ _ _)
        (msgExt_trans (msgExt_subKwHeadings _ _ _ _) (msgExt_headings _ _))))

theorem assignMessages_wg_pos (c : ContentJson) (a : HtmlAnalyzer) (kd : JSNum)
    (hs : List Heading) :
    1 ≤ (assignMessages c a kd hs).warnings.length +
      (assignMessages c a kd hs).goodPoints.length := by
  have h1 := keyword_stage_wg_lower c kd Messages.empty
  have h2 := (msgExt_assignMessages_tail c a kd hs).len_wg
  rw [show Messages.empty.warnings.length = 0 from rfl,
    show Messages.empty.goodPoints.length = 0 from rfl] at h1
  omega

theorem mk_wg_pos (c : ContentJson) (a : HtmlAnalyzer) (m : Bool) :
    1 ≤ (mkSeoAnalyzer c a m).messages.warnings.length +
      (mkSeoAnalyzer c a m).messages.goodPoints.length :=
  assignMessages_wg_pos c a _ _

theorem getSeoScore_formula (ms : Messages)
    (h : 1 ≤ ms.warnings.length + ms.goodPoints.length) :
    getSeoScoreOfMessages ms =
      .fin (min 100 (((ms.goodPoints.length : ℚ) /
        ((ms.warnings.length : ℚ) + (ms.goodPoints.length : ℚ))) * 100)) := by
  unfold getSeoScoreOfMessages
  dsimp only
  rw [if_neg (by omega)]
  simp only [JSNum.jmin]
  rw [min_comm]

theorem getSeoScore_bounds (ms : Messages)
    (h : 1 ≤ ms.warnings.length + ms.goodPoints.length) :
    ∃ q : ℚ, getSeoScoreOfMessages ms = .fin q ∧ 0 ≤ q ∧ q ≤ 100 := by
  refine ⟨_, getSeoScore_formula ms h, ?_, ?_⟩
  · apply le_min (by norm_num)
    apply mul_nonneg _ (by norm_num)
    apply div_nonneg (Nat.cast_nonneg _)
    have := Nat.cast_nonneg (α := ℚ) ms.warnings.length
    have := Nat.cast_nonneg (α := ℚ) ms.goodPoints.length
    linarith
  · exact min_le_left _ _

theorem densityVal_fin_nonneg (occ : ℤ) (wc : ℕ) (hocc : 0 ≤ occ) (hwc : wc ≠ 0) :
    ∃ q : ℚ, densityVal occ wc = .fin q ∧ 0 ≤ q := by
  unfold densityVal
  rw [if_neg hwc]
  refine ⟨_, rfl, ?_⟩
  apply mul_nonneg _ (by norm_num)
  apply div_nonneg _ (Nat.cast_nonneg _)
  exact_mod_cast hocc

theorem calculateDensity_fin_nonneg (c : ContentJson) (a : HtmlAnalyzer)
    (k : Option String) (bt : Option String)
    (hk : jsStrOrNull (jsCoalesce k c.keyword) ≠ "")
    (hw : a.wordCountOf (bt.getD a.bodyText) ≠ 0) :
    ∃ q : ℚ, calculateDensity c a k bt = .fin q ∧ 0 ≤ q := by
  unfold calculateDensity
  dsimp only
  exact densityVal_fin_nonneg _ _ (countOccurrencesInString_nonneg c a k _ hk) hw

theorem primary_keyword_not_blank (c : ContentJson) (hk : c.keyword ≠ some "") :
    jsStrOrNull (jsCoalesce c.keyword c.keyword) ≠ "" := by
  cases hck : c.keyword with
  | none => simp [jsCoalesce, jsStrOrNull]
  | some s =>
    rw [hck] at hk
    simp [jsCoalesce, jsStrOrNull]
    intro he
    exact hk (by rw [he])

theorem foldl_add_mulTen_fin_nonneg :
    ∀ l : List KeywordDensity,
      (∀ kd ∈ l, ∃ q : ℚ, kd.density = .fin q ∧ 0 ≤ q) →
      ∀ t : ℚ, 0 ≤ t →
        ∃ r : ℚ,
          l.foldl (fun (total : JSNum) (kd : KeywordDensity) => total.add kd.density.mulTen)
            (JSNum.fin t) = JSNum.fin r ∧ 0 ≤ r := by
  intro l
  induction l with
  | nil => intro _ t ht; exact ⟨t, rfl, ht⟩
  | cons kd tl ih =>
    intro hl t ht
    obtain ⟨q, hq, hq0⟩ := hl kd (List.mem_cons_self _ _)
    have step : (JSNum.fin t).add kd.density.mulTen = .fin (t + q * 10) := by
      rw [hq]
      rfl
    rw [List.foldl_cons, step]
    refine ih (fun x hx => hl x (List.mem_cons_of_mem _ hx)) _ ?_
    have : (0 : ℚ) ≤ q * 10 := by
      apply mul_nonneg hq0
      norm_num
    linarith

/-- C1: for every constructed ContentScorer the overall score accessor
returns min(100, goodPoints.length / (warnings.length + goodPoints.length)
* 100), and the minorWarnings list has no effect: two constructed
instances whose warnings and goodPoints lists have equal lengths return
the same overall score regardless of their minorWarnings lists. -/
theorem seo_c1 (c1 c2 : ContentJson) (a1 a2 : HtmlAnalyzer) (m1 m2 : Bool)
    (hw : (mkSeoAnalyzer c1 a1 m1).messages.warnings.length
        = (mkSeoAnalyzer c2 a2 m2).messages.warnings.length)
    (hg : (mkSeoAnalyzer c1 a1 m1).messages.goodPoints.length
        = (mkSeoAnalyzer c2 a2 m2).messages.goodPoints.length) :
    (mkSeoAnalyzer c1 a1 m1).getSeoScore
      = .fin (min 100 ((((mkSeoAnalyzer c1 a1 m1).messages.goodPoints.length : ℚ) /
          (((mkSeoAnalyzer c1 a1 m1).messages.warnings.length : ℚ) +
            ((mkSeoAnalyzer c1 a1 m1).messages.goodPoints.length : ℚ))) * 100))
    ∧ (mkSeoAnalyzer c1 a1 m1).getSeoScore = (mkSeoAnalyzer c2 a2 m2).getSeoScore := by
  constructor
  · exact getSeoScore_formula _ (mk_wg_pos c1 a1 m1)
  · show getSeoScoreOfMessages _ = getSeoScoreOfMessages _
    unfold getSeoScoreOfMessages
    dsimp only
    rw [hw, hg]

/-- C1 witness: two concrete constructed instances that differ only in
one heading text (hence in their minorWarnings contents) have equal
warning and good-point counts and the same overall score, given by the
formula. -/
theorem seo_c1_witness :
    (mkSeoAnalyzer exContentShortTitle exAnalyzerHeadingAlpha true).getSeoScore
      = .fin (min 100
          ((((mkSeoAnalyzer exContentShortTitle exAnalyzerHeadingAlpha true).messages.goodPoints.length : ℚ) /
            (((mkSeoAnalyzer exContentShortTitle exAnalyzerHeadingAlpha true).messages.warnings.length : ℚ) +
              ((mkSeoAnalyzer exContentShortTitle exAnalyzerHeadingAlpha true).messages.goodPoints.length : ℚ))) * 100))
    ∧ (mkSeoAnalyzer exContentShortTitle exAnalyzerHeadingAlpha true).getSeoScore
      = (mkSeoAnalyzer exContentShortTitle exAnalyzerHeadingBeta true).getSeoScore :=
  seo_c1 exContentShortTitle exContentShortTitle exAnalyzerHeadingAlpha exAnalyzerHeadingBeta
    true true (by with_unfolding_all decide) (by with_unfolding_all decide)

/-- C2: contrary to the claim, the density computation with word count
0 and the overall-score computation on empty message lists do not
return an explicitly defined numeric result: the embedded code yields
NaN for a density over an empty body (0 occurrences / 0 words),
+Infinity when the keyword does occur but the word count is 0, and NaN
for the overall score when warnings and goodPoints are both empty. -/
theorem seo_c2_evidence :
    calculateDensity exContentEmptyTitle exAnalyzerEmptyBody (some "seo") none = JSNum.nan
    ∧ calculateDensity exContentEmptyTitle exAnalyzerZeroCount (some "seo") none = JSNum.posInf
    ∧ getSeoScoreOfMessages Messages.empty = JSNum.nan := by
  refine ⟨?_, ?_, ?_⟩ <;> with_unfolding_all decide

/-- C4: contrary to the claim, occurrence counting with an empty
keyword does not return 0: it splits the text into single characters
and reports text.length - 1 occurrences ("abc" gives 2), and a null
keyword (with a null content keyword) is coerced to the string "null"
rather than counting 0 ("a null b" gives 1). -/
theorem seo_c4_evidence :
    countOccurrencesInString exContentEmptyTitle exAnalyzerPlain (some "") (some "abc") = 2
    ∧ countOccurrencesInString exContentNoKeyword exAnalyzerPlain none (some "a null b") = 1 := by
  constructor <;> with_unfolding_all decide

/-- C5: contrary to the claim, the title rule appends the good point
with the sub-keyword count even when no sub-keyword is found in the
title: with the single sub-keyword "xyz" absent from the title (its
in-title density is not truthy), the constructed instance still
receives the good point with count 1 and no minor warning. -/
theorem seo_c5_evidence :
    (∀ kd ∈ getSubKeywordsInTitle exContentSubKwNotInTitle exAnalyzerPlain,
        kd.density.truthy = false)
    ∧ Msg.subKeywordsInTitleCount 1
        ∈ (mkSeoAnalyzer exContentSubKwNotInTitle exAnalyzerPlain false).messages.goodPoints
    ∧ Msg.noSubKeywordsInTitle
        ∉ (mkSeoAnalyzer exContentSubKwNotInTitle exAnalyzerPlain false).messages.minorWarnings := by
  refine ⟨?_, ?_, ?_⟩ <;> with_unfolding_all decide

/-- C6: getPosition returns -1 when text or keyword is empty, otherwise
it returns the number of space-separated fragments of the text that
comes before the first occurrence of the keyword, with the documented
off-by-one on the two scenario inputs. -/
theorem seo_c6 (t k : String) :
    ((t = "" ∨ k = "") → getPosition t (some k) = -1)
    ∧ (t ≠ "" → k ≠ "" →
        getPosition t (some k) = (spaceSplitCount (textBeforeFirstMatch t k) : ℤ))
    ∧ getPosition "seo is great" (some "seo") = 1
    ∧ getPosition "great seo content" (some "seo") = 2 := by
  refine ⟨?_, ?_, ?_, ?_⟩
  · intro h
    unfold getPosition
    rcases h with h | h
    · rw [if_pos (Or.inl h)]
    · rw [if_pos (Or.inr (by simp [jsTruthy, h]))]
  · intro htne hk
    unfold getPosition
    rw [if_neg (by simp [jsTruthy, htne, hk])]
    show ((jsSplit ((jsSplit t k).headD "") " ").length : ℤ) = _
    rw [jsSplit_headD t k hk]
    rfl
  · decide
  · decide

/-- C6 witness: the theorem applied to concrete inputs, discharging the
emptiness and nonemptiness hypotheses. -/
theorem seo_c6_witness :
    getPosition "" (some "seo") = -1
    ∧ getPosition "great seo content" (some "seo")
        = (spaceSplitCount (textBeforeFirstMatch "great seo content" "seo") : ℤ) :=
  ⟨(seo_c6 "" "seo").1 (Or.inl rfl),
    (seo_c6 "great seo content" "seo").2.1 (by decide) (by decide)⟩

/-- C7: with strictMode false the constructor appends exactly one
synthetic H1-from-title heading to the analyzer's list; with strictMode
true it appends nothing, and an analyzer returning zero headings then
yields the missing-heading warning. -/
theorem seo_c7 (c : ContentJson) (a : HtmlAnalyzer) :
    (mkSeoAnalyzer c a false).headings = a.allHeadingTags ++ [{ tag := "H1", text := c.title }]
    ∧ (mkSeoAnalyzer c a true).headings = a.allHeadingTags
    ∧ (a.allHeadingTags = [] →
        Msg.headingsMissing ∈ (mkSeoAnalyzer c a true).messages.warnings) := by
  refine ⟨?_, ?_, ?_⟩
  · simp [mkSeoAnalyzer]
  · simp [mkSeoAnalyzer]
  · intro h
    have hm : (mkSeoAnalyzer c a true).messages
        = assignMessages c a (calculateDensity c a c.keyword none) [] := by
      simp [mkSeoAnalyzer, h]
    rw [hm]
    exact assignMessages_missing_headings c a _

/-- C7 witness: on a concrete analyzer with no headings, strict mode
produces the missing-heading warning. -/
theorem seo_c7_witness :
    Msg.headingsMissing ∈ (mkSeoAnalyzer exContentShortTitle exAnalyzerPlain true).messages.warnings :=
  (seo_c7 exContentShortTitle exAnalyzerPlain).2.2 rfl

/-- C8: the title length range is inclusive at both ends: a title of
exactly 40 or exactly 70 characters produces the good point reporting
the length, a title of 39 characters produces the too-short warning,
and one of 71 characters produces the too-long warning. -/
theorem seo_c8 (c : ContentJson) (a : HtmlAnalyzer) (m : Bool) :
    ((c.title.length = 40 ∨ c.title.length = 70) →
        Msg.titleLengthGood c.title.length ∈ (mkSeoAnalyzer c a m).messages.goodPoints)
    ∧ (c.title.length = 39 →
        Msg.titleTooShort ∈ (mkSeoAnalyzer c a m).messages.warnings)
    ∧ (c.title.length = 71 →
        Msg.titleTooLong ∈ (mkSeoAnalyzer c a m).messages.warnings) := by
  refine ⟨?_, ?_, ?_⟩
  · intro h
    refine (assignMessages_title_tail c a (calculateDensity c a c.keyword none)
      (a.allHeadingTags ++ if m then [] else [{ tag := "H1", text := c.title }])).mem_goodPoints ?_
    apply title_stage_mem_lengthGood
    · rcases h with h | h <;> rw [h] <;> decide
    · rcases h with h | h <;> rw [h] <;> decide
  · intro h
    refine (assignMessages_title_tail c a (calculateDensity c a c.keyword none)
      (a.allHeadingTags ++ if m then [] else [{ tag := "H1", text := c.title }])).mem_warnings ?_
    apply title_stage_mem_tooShort
    · apply string_ne_empty_of_length_pos
      omega
    · rw [h]
      decide
  · intro h
    refine (assignMessages_title_tail c a (calculateDensity c a c.keyword none)
      (a.allHeadingTags ++ if m then [] else [{ tag := "H1", text := c.title }])).mem_warnings ?_
    apply title_stage_mem_tooLong
    rw [h]
    decide

/-- C8 witness: a concrete 40-character title receives the good point
reporting its length. -/
theorem seo_c8_witness :
    Msg.titleLengthGood exContentTitle40.title.length
      ∈ (mkSeoAnalyzer exContentTitle40 exAnalyzerPlain false).messages.goodPoints :=
  (seo_c8 exContentTitle40 exAnalyzerPlain false).1 (Or.inl (by decide))

/-- C9: in the link rules, fewer unique internal links than
wordCount/300 yields the warning with the count and otherwise the good
point is appended; fewer unique external links than wordCount/400
yields the warning, and otherwise no external-link message of either
kind is appended: every message the stage adds beyond the input state
is then one of the internal-link or duplicate-link messages. -/
theorem seo_c9 (a : HtmlAnalyzer) (ms : Messages) :
    (((totalUniqueInternalLinksCount a : ℚ) < (a.getWordCount none : ℚ) / 300 →
        Msg.internalLinksLow (totalUniqueInternalLinksCount a)
          ∈ (assignMessagesForLinks a ms).warnings)
      ∧ (¬ (totalUniqueInternalLinksCount a : ℚ) < (a.getWordCount none : ℚ) / 300 →
        Msg.internalLinksGood (totalUniqueInternalLinksCount a)
          ∈ (assignMessagesForLinks a ms).goodPoints))
    ∧ ((totalUniqueExternalLinksCount a : ℚ) < (a.getWordCount none : ℚ) / 400 →
        Msg.externalLinksLow (totalUniqueExternalLinksCount a)
          ∈ (assignMessagesForLinks a ms).warnings)
    ∧ (¬ (totalUniqueExternalLinksCount a : ℚ) < (a.getWordCount none : ℚ) / 400 →
        (∀ x ∈ (assignMessagesForLinks a ms).warnings,
            x ∈ ms.warnings ∨ x = Msg.internalLinksLow (totalUniqueInternalLinksCount a))
          ∧ (∀ x ∈ (assignMessagesForLinks a ms).goodPoints,
            x ∈ ms.goodPoints ∨ x = Msg.internalLinksGood (totalUniqueInternalLinksCount a)
              ∨ x = Msg.noInternalDuplicateLinks ∨ x = Msg.noExternalDuplicateLinks)) := by
  refine ⟨⟨?_, ?_⟩, ?_, ?_⟩
  · intro h
    unfold assignMessagesForLinks
    dsimp only
    rw [if_pos h]
    repeat'
      first
      | (solve | simp [pushWarning, pushGoodPoint, pushMinorWarning])
      | apply mem_warnings_ite
  · intro h
    unfold assignMessagesForLinks
    dsimp only
    rw [if_neg h]
    repeat'
      first
      | (solve | simp [pushWarning, pushGoodPoint, pushMinorWarning])
      | apply mem_goodPoints_ite
      | apply mem_goodPoints_pushWarning
      | apply mem_goodPoints_pushMinorWarning
      | apply mem_goodPoints_pushGoodPoint
  · intro h
    unfold assignMessagesForLinks
    dsimp only
    rw [if_pos h]
    repeat'
      first
      | (solve | simp [pushWarning, pushGoodPoint, pushMinorWarning])
      | apply mem_warnings_ite
  · intro h
    unfold assignMessagesForLinks
    dsimp only
    rw [if_neg h]
    constructor
    · intro x hx
      revert hx
      repeat' split
      all_goals simp [pushWarning, pushGoodPoint, pushMinorWarning]
      all_goals tauto
    · intro x hx
      revert hx
      repeat' split
      all_goals simp [pushWarning, pushGoodPoint, pushMinorWarning]
      all_goals tauto

/-- C9 witness: with 600 document words and no links, the internal-link
warning with count 0 is appended. -/
theorem seo_c9_witness :
    Msg.internalLinksLow (totalUniqueInternalLinksCount exAnalyzerManyWords)
      ∈ (assignMessagesForLinks exAnalyzerManyWords Messages.empty).warnings :=
  (seo_c9 exAnalyzerManyWords Messages.empty).1.1 (by with_unfolding_all decide)

/-- C10: for every constructed instance, warnings and goodPoints
together hold at least one message, the primary-keyword rule having
unconditionally pushed a good point (truthy keyword) or a warning
(falsy keyword); consequently the overall score is a finite rational,
never the NaN of the empty-denominator case. -/
theorem seo_c10 (c : ContentJson) (a : HtmlAnalyzer) (m : Bool) :
    1 ≤ (mkSeoAnalyzer c a m).messages.warnings.length +
        (mkSeoAnalyzer c a m).messages.goodPoints.length
    ∧ (if jsTruthy c.keyword = true then
        Msg.keywordPresent c.keyword ∈ (mkSeoAnalyzer c a m).messages.goodPoints
      else Msg.keywordMissing ∈ (mkSeoAnalyzer c a m).messages.warnings)
    ∧ ∃ q : ℚ, (mkSeoAnalyzer c a m).getSeoScore = .fin q := by
  refine ⟨mk_wg_pos c a m, ?_, ?_⟩
  · by_cases h : jsTruthy c.keyword = true
    · rw [if_pos h]
      exact (msgExt_assignMessages_tail c a (calculateDensity c a c.keyword none)
        (a.allHeadingTags ++ if m then [] else [{ tag := "H1", text := c.title }])).mem_goodPoints
        (keyword_stage_mem_present c _ Messages.empty h)
    · rw [if_neg h]
      exact (msgExt_assignMessages_tail c a (calculateDensity c a c.keyword none)
        (a.allHeadingTags ++ if m then [] else [{ tag := "H1", text := c.title }])).mem_warnings
        (keyword_stage_mem_missing c _ Messages.empty h)
  · obtain ⟨q, hq, _, _⟩ := getSeoScore_bounds (mkSeoAnalyzer c a m).messages (mk_wg_pos c a m)
    exact ⟨q, hq⟩

/-- C3 counterexample: the claim as stated fails, and each proviso of
the amendment is forced by a concrete constructed instance: with word
count 0 (empty body, empty title) the keyword score is NaN, not a
rational in [0, 100]; with an empty-string primary keyword (split by
the empty separator counts -1 occurrences) it is the finite value
-2000, below 0; and with an empty-string sub-keyword it is -990,
below 0. -/
theorem seo_c3_counterexample :
    (¬ ∃ q : ℚ, 0 ≤ q ∧ q ≤ 100 ∧
      (mkSeoAnalyzer exContentEmptyTitle exAnalyzerEmptyBody false).getKeywordSeoScore
        = JSNum.fin q)
    ∧ (mkSeoAnalyzer exContentBlankKeyword exAnalyzerBlankCount false).getKeywordSeoScore
        = JSNum.fin (-2000)
    ∧ (mkSeoAnalyzer exContentBlankSubKw exAnalyzerBlankCount false).getKeywordSeoScore
        = JSNum.fin (-990) := by
  refine ⟨?_, ?_, ?_⟩
  · have h : (mkSeoAnalyzer exContentEmptyTitle exAnalyzerEmptyBody false).getKeywordSeoScore
        = JSNum.nan := by
      with_unfolding_all decide
    rintro ⟨q, _, _, hq⟩
    rw [h] at hq
    exact JSNum.noConfusion hq
  · with_unfolding_all decide
  · with_unfolding_all decide

/-- C3 amended: the overall score of every constructed instance is,
unconditionally, a finite rational in [0, 100]; the keyword score is a
finite rational in [0, 100] provided the primary keyword and the
sub-keywords are not the empty string and the analyzer reports nonzero
word counts for the title and for the body text (a zero word count
makes the score non-finite and an empty-string keyword drives the
split-based occurrence count to -1 and the score below 0; saturation
still caps every large or infinite finite-direction value at 100). -/
theorem seo_c3 (c : ContentJson) (a : HtmlAnalyzer) (m : Bool) :
    (∃ q : ℚ, (mkSeoAnalyzer c a m).getSeoScore = .fin q ∧ 0 ≤ q ∧ q ≤ 100)
    ∧ (c.keyword ≠ some "" → (∀ sk ∈ c.subKeywords, sk ≠ "") →
        a.wordCountOf c.title ≠ 0 → a.wordCountOf a.bodyText ≠ 0 →
        ∃ q : ℚ, (mkSeoAnalyzer c a m).getKeywordSeoScore = .fin q ∧ 0 ≤ q ∧ q ≤ 100) := by
  constructor
  · exact getSeoScore_bounds _ (mk_wg_pos c a m)
  · intro hk hsk ht hb
    obtain ⟨q1, hq1, h1n⟩ := calculateDensity_fin_nonneg c a (jsCoalesce none c.keyword)
      (some c.title) (primary_keyword_not_blank c hk) ht
    obtain ⟨q4, hq4, h4n⟩ := calculateDensity_fin_nonneg c a c.keyword none
      (primary_keyword_not_blank c hk) hb
    have hsubs : ∀ kd ∈ getSubKeywordsDensity c a, ∃ q : ℚ, kd.density = .fin q ∧ 0 ≤ q := by
      intro kd hkd
      unfold getSubKeywordsDensity at hkd
      rw [List.mem_map] at hkd
      obtain ⟨sk, hmem, rfl⟩ := hkd
      exact calculateDensity_fin_nonneg c a (some sk) none (hsk sk hmem) hb
    obtain ⟨r, hr, hrn⟩ := foldl_add_mulTen_fin_nonneg (getSubKeywordsDensity c a) hsubs 0 le_rfl
    show ∃ q : ℚ, JSNum.jmin
        ((((getKeywordInTitle c a none).density.mulTen.add
            (JSNum.fin (((getSubKeywordsInTitle c a).length : ℚ) * 10))).add
          ((getSubKeywordsDensity c a).foldl
            (fun (total : JSNum) (kd : KeywordDensity) => total.add kd.density.mulTen)
            (JSNum.fin 0))).add
          ((calculateDensity c a c.keyword none).mulTen))
        (JSNum.fin 100) = JSNum.fin q ∧ 0 ≤ q ∧ q ≤ 100
    have e1 : (getKeywordInTitle c a none).density
        = calculateDensity c a (jsCoalesce none c.keyword) (some c.title) := rfl
    rw [e1, hq1, hq4, hr]
    simp only [JSNum.mulTen, JSNum.add, JSNum.jmin]
    refine ⟨_, rfl, ?_, min_le_right _ _⟩
    apply le_min _ (by norm_num)
    have ha : (0 : ℚ) ≤ q1 * 10 := by
      apply mul_nonneg h1n
      norm_num
    have hc : (0 : ℚ) ≤ ((getSubKeywordsInTitle c a).length : ℚ) * 10 := by positivity
    have hd : (0 : ℚ) ≤ q4 * 10 := by
      apply mul_nonneg h4n
      norm_num
    linarith

/-- C3 witness: on a concrete regular content and analyzer with
positive word counts, both scores are finite rationals in [0, 100]. -/
theorem seo_c3_witness :
    (∃ q : ℚ, (mkSeoAnalyzer exContentRegular exAnalyzerPlain false).getSeoScore
        = JSNum.fin q ∧ 0 ≤ q ∧ q ≤ 100)
    ∧ (∃ q : ℚ, (mkSeoAnalyzer exContentRegular exAnalyzerPlain false).getKeywordSeoScore
        = JSNum.fin q ∧ 0 ≤ q ∧ q ≤ 100) :=
  ⟨(seo_c3 exContentRegular exAnalyzerPlain false).1,
    (seo_c3 exContentRegular exAnalyzerPlain false).2 (by decide) (by decide)
      (by with_unfolding_all decide) (by with_unfolding_all decide)⟩

end SeordVn